import Mathlib

/-!
Shallow embedding of the office-attendance backend (`src/main.py`).

The global mutable collections `USERS`, `ATTENDANCE_RECORDS`, `TODOS` and
`DELETED_USERS` are modelled as an explicit state record `St`; every endpoint
becomes a pure function from the current state (plus its request data) to a
result and a new state.  Fallible endpoints (those raising `HTTPException`)
return `Except Err St`.  Python's `datetime.now()` is passed in as an explicit
`now : String` argument, and the `random.random() < 0.85` draws of the
attendance back-fill are abstracted by an injected `pick` function, exactly as
the spec allows for the status generator.
-/

namespace OfficeApp

/-- A user row, as stored in `USERS` (main.py `DEFAULT_USERS` / `create_user`).
The seeded default users carry no `created_at` key, hence `Option String`. -/
structure UserR where
  id : Nat
  email : String
  password : String
  full_name : String
  role : String
  created_at : Option String
deriving DecidableEq, Repr

/-- An attendance row, as stored in `ATTENDANCE_RECORDS`.
(`create_attendance` additionally attaches transient `user_name` / `user_email`
display keys to the dict it returns in the insert branch; no later read of the
collection consults those keys, so they are not part of the model.) -/
structure Rec where
  id : Nat
  user_id : Nat
  status : String
  date : String
  notes : Option String
deriving DecidableEq, Repr

/-- A todo row, as stored in `TODOS`. -/
structure TodoR where
  id : Nat
  user_id : Nat
  notes : String
  date_created : String
deriving DecidableEq, Repr

/-- One entry of the `DELETED_USERS` archive (main.py `delete_user`). -/
structure ArchEntry where
  user : UserR
  attendance : List Rec
  todos : List TodoR
  deleted_at : String
deriving DecidableEq, Repr

/-- The whole mutable state of the process: the four global collections. -/
structure St where
  users : List UserR
  attendance : List Rec
  todos : List TodoR
  deleted : List ArchEntry
deriving DecidableEq, Repr

/-- Error kinds raised by the endpoints (`HTTPException` status codes
400 / 404 / 403 in main.py). -/
inductive Err where
  | duplicateEmail
  | notFound
  | forbidden
deriving DecidableEq, Repr

/-! ### Date window machinery

The back-fill window of `generate_attendance_for_user` runs from 2025-04-01 to
2025-07-02 inclusive, which is 93 calendar days; day offset 0 is 2025-04-01,
a Tuesday, so Python's `weekday()` of offset `d` is `(1 + d) % 7` (Monday = 0).
-/

/-- Two-digit zero padding, as produced by `strftime("%Y-%m-%d")`. -/
def pad2 (n : Nat) : String :=
  if n < 10 then "0" ++ toString n else toString n

/-- The `YYYY-MM-DD` string of day offset `d` from 2025-04-01
(April has 30 days, May 31, June 30). -/
def dateStr (d : Nat) : String :=
  if d < 30 then "2025-04-" ++ pad2 (d + 1)
  else if d < 61 then "2025-05-" ++ pad2 (d - 29)
  else if d < 91 then "2025-06-" ++ pad2 (d - 60)
  else "2025-07-" ++ pad2 (d - 90)

/-- Day offsets of the window that are weekdays (`current_date.weekday() < 5`). -/
def backfillDays : List Nat :=
  (List.range 93).filter (fun d => (1 + d) % 7 < 5)

/-- Python `max([r["id"] for r in ATTENDANCE_RECORDS], default=0)`. -/
def maxRecId (recs : List Rec) : Nat :=
  recs.foldl (fun m r => max m r.id) 0

/-- Python `max([u["id"] for u in USERS], default=0)`. -/
def maxUserId (users : List UserR) : Nat :=
  users.foldl (fun m u => max m u.id) 0

/-- main.py `generate_attendance_for_user`: appends one record per weekday of
the fixed window, with ids continuing from the current maximum; `pick d` stands
for the `random.random() < 0.85` draw on day offset `d`. -/
def generate_attendance_for_user (user_id : Nat) (pick : Nat → Bool)
    (recs : List Rec) : List Rec :=
  recs ++ backfillDays.enum.map (fun p =>
    { id := maxRecId recs + 1 + p.1
      user_id := user_id
      status := if pick p.2 then "present" else "absent"
      date := dateStr p.2
      notes := none })

/-! ### Seed data (main.py `DEFAULT_USERS` and `GlobalState`) -/

/-- The six seeded users of main.py `DEFAULT_USERS`. -/
def defaultUsers : List UserR :=
  [ { id := 1, email := "admin@company.com", password := "admin123",
      full_name := "Admin User", role := "admin", created_at := none },
    { id := 2, email := "user1@company.com", password := "user123",
      full_name := "User One", role := "user", created_at := none },
    { id := 3, email := "user2@company.com", password := "user123",
      full_name := "User Two", role := "user", created_at := none },
    { id := 4, email := "user3@company.com", password := "user123",
      full_name := "User Three", role := "user", created_at := none },
    { id := 5, email := "user4@company.com", password := "user123",
      full_name := "User Four", role := "user", created_at := none },
    { id := 6, email := "user5@company.com", password := "user123",
      full_name := "User Five", role := "user", created_at := none } ]

/-- main.py `GlobalState.generate_attendance_data`: back-fill for every default
user except the admin (index 0), with one global running `record_id` starting
at 1 — since ids are assigned consecutively, the running counter equals the
number of records accumulated so far plus one. -/
def generate_attendance_data (pick : Nat → Nat → Bool) : List Rec :=
  (defaultUsers.drop 1).foldl (fun acc u =>
    acc ++ backfillDays.enum.map (fun p =>
      { id := acc.length + p.1 + 1
        user_id := u.id
        status := if pick u.id p.2 then "present" else "absent"
        date := dateStr p.2
        notes := none })) []

/-- The fresh-start state of `GlobalState.__init__` (no files on disk):
default users, generated default attendance, no todos, empty archive. -/
def initialState (pick : Nat → Nat → Bool) : St :=
  { users := defaultUsers
    attendance := generate_attendance_data pick
    todos := []
    deleted := [] }

/-! ### User lifecycle endpoints -/

/-- Request body of `POST /api/users` (`CreateUserRequest`; `role` defaults to
"user" at the HTTP layer). -/
structure CreateUserRequest where
  email : String
  password : String
  full_name : String
  role : String
deriving DecidableEq, Repr

/-- The welcome-todo text of main.py `create_user`. -/
def welcomeNote (full_name : String) : String :=
  "Welcome " ++ full_name ++ "! This is your first todo item."

/-- main.py `create_user`: reject a duplicate email among ACTIVE users only;
insert the user with id `max(active ids) + 1`; always run the attendance
back-fill; create the welcome todo (id `len(TODOS) + 1`) only for non-admins. -/
def create_user (req : CreateUserRequest) (now : String) (pick : Nat → Bool)
    (s : St) : Except Err St :=
  if s.users.any (fun u => u.email == req.email) then
    .error .duplicateEmail
  else
    let newId := maxUserId s.users + 1
    let newUser : UserR :=
      { id := newId, email := req.email, password := req.password,
        full_name := req.full_name, role := req.role, created_at := some now }
    let todos' :=
      if req.role != "admin" then
        s.todos ++ [{ id := s.todos.length + 1, user_id := newId,
                      notes := welcomeNote req.full_name, date_created := now }]
      else s.todos
    .ok { users := s.users ++ [newUser]
          attendance := generate_attendance_for_user newId pick s.attendance
          todos := todos'
          deleted := s.deleted }

/-- main.py `delete_user`: 404 if no active user has the id, 403 for admins;
otherwise archive `(user, attendance, todos, deleted_at)` and strip every row
owned by the id from the three active collections. -/
def delete_user (user_id : Nat) (now : String) (s : St) : Except Err St :=
  match s.users.find? (fun u => u.id == user_id) with
  | none => .error .notFound
  | some u =>
    if u.role == "admin" then .error .forbidden
    else
      .ok { users := s.users.filter (fun v => v.id != user_id)
            attendance := s.attendance.filter (fun r => r.user_id != user_id)
            todos := s.todos.filter (fun t => t.user_id != user_id)
            deleted := s.deleted ++
              [{ user := u
                 attendance := s.attendance.filter (fun r => r.user_id == user_id)
                 todos := s.todos.filter (fun t => t.user_id == user_id)
                 deleted_at := now }] }

/-- main.py `permanent_delete_user`: 404 if the archive has no entry for the
id, otherwise drop every archive entry for it. -/
def permanent_delete_user (user_id : Nat) (s : St) : Except Err St :=
  match s.deleted.find? (fun d => d.user.id == user_id) with
  | none => .error .notFound
  | some _ =>
    .ok { s with deleted := s.deleted.filter (fun d => d.user.id != user_id) }

/-- main.py `undo_user_deletion`: 404 if the archive has no entry for the id;
otherwise re-append the FIRST archived entry's user, attendance and todos to
the active collections and drop every archive entry for the id. -/
def undo_user_deletion (user_id : Nat) (s : St) : Except Err St :=
  match s.deleted.find? (fun d => d.user.id == user_id) with
  | none => .error .notFound
  | some d =>
    .ok { users := s.users ++ [d.user]
          attendance := s.attendance ++ d.attendance
          todos := s.todos ++ d.todos
          deleted := s.deleted.filter (fun e => e.user.id != user_id) }

/-! ### Attendance endpoints -/

/-- Request body of `POST /api/attendance` (`AttendanceRequest`). -/
structure AttendanceRequest where
  user_id : Nat
  status : String
  date : String
  notes : Option String
deriving DecidableEq, Repr

/-- The upsert key of `create_attendance`: same `user_id` and same `date`. -/
def matchesKey (u : Nat) (d : String) (r : Rec) : Bool :=
  r.user_id == u && r.date == d

/-- In-place overwrite of `status` and `notes` of the FIRST record matching
`(u, d)`, leaving every other record untouched — this is what the mutation of
`existing_record` plus the `ATTENDANCE_RECORDS[i] = existing_record; break`
loop of main.py `create_attendance` amounts to. -/
def upsertFirst (u : Nat) (d : String) (st : String) (nts : Option String) :
    List Rec → List Rec
  | [] => []
  | r :: rs =>
    if matchesKey u d r then { r with status := st, notes := nts } :: rs
    else r :: upsertFirst u d st nts rs

/-- main.py `create_attendance`: look up by `(user_id, date)`; if found,
overwrite that record's `status` and `notes` in place and return it; otherwise
append a new record with id `max(existing ids) + 1` and return it. -/
def create_attendance (req : AttendanceRequest) (s : St) : Rec × St :=
  match s.attendance.find? (matchesKey req.user_id req.date) with
  | some r0 =>
    ({ r0 with status := req.status, notes := req.notes },
     { s with attendance :=
         upsertFirst req.user_id req.date req.status req.notes s.attendance })
  | none =>
    let newRec : Rec :=
      { id := maxRecId s.attendance + 1, user_id := req.user_id,
        status := req.status, date := req.date, notes := req.notes }
    (newRec, { s with attendance := s.attendance ++ [newRec] })

/-- main.py `delete_attendance`: pop the first record with the id, 404 if
there is none. -/
def delete_attendance (aid : Nat) (s : St) : Except Err St :=
  if s.attendance.any (fun r => r.id == aid) then
    .ok { s with attendance := s.attendance.eraseP (fun r => r.id == aid) }
  else .error .notFound

/-! ### Attendance queries (`GET /api/attendance`, `GET /api/attendance/stats`)

Both endpoints apply the same two filters.  `if user_id:` in Python is a
TRUTHINESS test: the user-id filter is skipped both when the query parameter
is absent and when it is 0.  The month/year filter parses each record's date
with `strptime`, which raises on a malformed date and aborts the request;
that abort is modelled by `Option` (`none` = the endpoint faults). -/

/-- Length of a month in a given year (Gregorian, as Python's `datetime`). -/
def daysInMonth (y m : Nat) : Nat :=
  if m == 2 then
    if y % 4 == 0 && (y % 100 != 0 || y % 400 == 0) then 29 else 28
  else if m == 4 || m == 6 || m == 9 || m == 11 then 30
  else 31

/-- Split a character list at every dash, like `s.split("-")` on the
underlying string (kernel-reducible, unlike `String.splitOn`). -/
def splitDash : List Char → List (List Char)
  | [] => [[]]
  | c :: cs =>
    let rest := splitDash cs
    if c == '-' then [] :: rest
    else
      match rest with
      | [] => [[c]]
      | p :: ps => (c :: p) :: ps

/-- Value of a nonempty all-digit character list, `none` otherwise. -/
def digitsToNat? (cs : List Char) : Option Nat :=
  if cs.isEmpty then none
  else if cs.all Char.isDigit then
    some (cs.foldl (fun n c => 10 * n + (c.toNat - 48)) 0)
  else none

/-- Parse a date string exactly as `datetime.strptime(s, "%Y-%m-%d")` does;
`none` models the `ValueError` it raises.  CPython's `_strptime` matches `%Y`
against exactly four digits, `%m` against one or two digits valued 1..12 and
`%d` against one or two digits valued 1..31, requires the whole string to be
consumed, and the final `datetime` construction additionally requires the
year to be at least 1 and the day to exist in that month of that year (so
`"2025-02-30"` or `"02025-04-01"` raise). -/
def parseDate (sdate : String) : Option (Nat × Nat × Nat) :=
  match splitDash sdate.toList with
  | [y, m, d] =>
    match digitsToNat? y, digitsToNat? m, digitsToNat? d with
    | some yn, some mn, some dn =>
      if y.length == 4 && 1 ≤ yn &&
         (m.length == 1 || m.length == 2) && 1 ≤ mn && mn ≤ 12 &&
         (d.length == 1 || d.length == 2) && 1 ≤ dn &&
         dn ≤ daysInMonth yn mn then
        some (yn, mn, dn)
      else none
    | _, _, _ => none
  | _ => none

/-- Does a record with parsed date `ym` survive the month/year filter?
(`continue` when a given year or month does not match.) -/
def keepRecord (month year : Option Nat) (ym : Nat × Nat × Nat) : Bool :=
  (match year with | some y => ym.1 == y | none => true) &&
  (match month with | some m => ym.2.1 == m | none => true)

/-- The month/year filtering loop shared by both GET endpoints. -/
def monthYearFilter (month year : Option Nat) : List Rec → Option (List Rec)
  | [] => some []
  | r :: rs => do
    let ym ← parseDate r.date
    let rest ← monthYearFilter month year rs
    pure (if keepRecord month year ym then r :: rest else rest)

/-- The truthiness-guarded user-id filter (`if user_id:` keeps all records
when the parameter is absent or 0). -/
def userFilter (uid : Option Nat) (recs : List Rec) : List Rec :=
  match uid with
  | some n => if n != 0 then recs.filter (fun r => r.user_id == n) else recs
  | none => recs

/-- The full filter pipeline of `get_attendance` / `get_attendance_stats`:
truthiness-guarded user-id filter, then the month/year loop (entered only when
at least one of `month`, `year` was supplied). -/
def filterAttendance (uid month year : Option Nat) (recs : List Rec) :
    Option (List Rec) :=
  if month.isSome || year.isSome then
    monthYearFilter month year (userFilter uid recs)
  else some (userFilter uid recs)

/-- A JSON-ish value of the per-record dicts returned by `get_attendance`. -/
inductive Val where
  | nat : Nat → Val
  | str : String → Val
deriving DecidableEq, Repr

/-- The per-record output dict of main.py `get_attendance`: `id`, `user_id`,
`status` and `date` only (no `notes`), plus `user_name` / `user_email` when an
active user with the record's `user_id` exists. -/
def cleanRecord (users : List UserR) (r : Rec) : List (String × Val) :=
  let base := [("id", Val.nat r.id), ("user_id", Val.nat r.user_id),
               ("status", Val.str r.status), ("date", Val.str r.date)]
  match users.find? (fun u => u.id == r.user_id) with
  | some u => base ++ [("user_name", Val.str u.full_name),
                       ("user_email", Val.str u.email)]
  | none => base

/-- main.py `get_attendance`: filter, then map every surviving record to its
cleaned output dict.  The endpoint only reads the state. -/
def get_attendance (uid month year : Option Nat) (s : St) :
    Option (List (List (String × Val))) :=
  (filterAttendance uid month year s.attendance).map
    (fun recs => recs.map (cleanRecord s.users))

/-- main.py `get_attendance_stats`: the returned dict, with its literal keys.
Python computes `attendance_rate` by float division; `Rat` stands in for the
exact value.  When the filtered set is empty the guard `if total_records > 0`
short-circuits and no division happens at all. -/
def get_attendance_stats (uid month year : Option Nat) (s : St) :
    Option (List (String × Rat)) :=
  (filterAttendance uid month year s.attendance).map (fun records =>
    let total : Nat := records.length
    let present : Nat := (records.filter (fun r => r.status == "present")).length
    let absent : Nat := total - present
    [("total_days", (total : Rat)), ("present_days", (present : Rat)),
     ("absent_days", (absent : Rat)),
     ("attendance_rate",
       if total > 0 then (present : Rat) / (total : Rat) * 100 else 0)])

/-! ### Todo endpoints -/

/-- Request body of `POST /api/todos` (`TodoRequest`). -/
structure TodoRequest where
  user_id : Nat
  notes : String
  date_created : Option String
deriving DecidableEq, Repr

/-- main.py `create_todo`: the new todo's id is `len(TODOS) + 1` — NOT
`max id + 1`.  `date_created` is Python's `todo.date_created or now`, a
TRUTHINESS fallback: today's date is substituted both when the field is
absent and when it is the empty string. -/
def create_todo (req : TodoRequest) (now : String) (s : St) : TodoR × St :=
  let newTodo : TodoR :=
    { id := s.todos.length + 1, user_id := req.user_id,
      notes := req.notes,
      date_created :=
        match req.date_created with
        | some sdate => if sdate != "" then sdate else now
        | none => now }
  (newTodo, { s with todos := s.todos ++ [newTodo] })

/-- main.py `delete_todo`: pop the first todo with the id, 404 if none. -/
def delete_todo (tid : Nat) (s : St) : Except Err St :=
  if s.todos.any (fun t => t.id == tid) then
    .ok { s with todos := s.todos.eraseP (fun t => t.id == tid) }
  else .error .notFound

/-! ### Derived observables used by the claims -/

/-- Ids of the active users. -/
def activeUserIds (s : St) : List Nat := s.users.map (fun u => u.id)

/-- Ids of the users held in the Deleted Users archive. -/
def archivedUserIds (s : St) : List Nat := s.deleted.map (fun e => e.user.id)

/-- Number of attendance records for a given `(user_id, date)` key. -/
def countFor (u : Nat) (d : String) (recs : List Rec) : Nat :=
  (recs.filter (matchesKey u d)).length

/-- Projects the state out of a successful endpoint result (empty state on
error; used only on chains that are proved to succeed). -/
def okState : Except Err St → St
  | .ok s => s
  | .error _ => { users := [], attendance := [], todos := [], deleted := [] }

/-- A state with no records at all. -/
def emptySt : St := { users := [], attendance := [], todos := [], deleted := [] }

/-- A state whose only active user is the seeded admin account. -/
def adminOnlySt : St :=
  { users := [{ id := 1, email := "admin@company.com", password := "admin123",
                full_name := "Admin User", role := "admin", created_at := none }]
    attendance := []
    todos := []
    deleted := [] }

/-- All-present stand-in for the random status draws. -/
def pickAll : Nat → Bool := fun _ => true

/-- All-present stand-in for the seeded per-user status draws. -/
def pickAll2 : Nat → Nat → Bool := fun _ _ => true

/-- Chain `deleteUser(6)` on the fresh seed state, then `createUser` of a new
non-admin account: the new account receives id `max(1..5) + 1 = 6`, which is
still held by the archived user 6. -/
def reuseIdChain : Except Err St :=
  (delete_user 6 "t1" (initialState pickAll2)).bind
    (create_user { email := "new@company.com", password := "pw",
                   full_name := "New User", role := "user" } "t2" pickAll)

/-- The same chain continued with `undoUserDeletion(6)`: the archived
attendance of the old user 6 is re-inserted next to the freshly generated
back-fill of the new user 6. -/
def reuseIdUndoChain : Except Err St :=
  reuseIdChain.bind (undo_user_deletion 6)

/-- The todos state for the id-collision scenario: two todos (ids 1 and 2),
then todo 1 is deleted, so `len(TODOS) + 1 = 2` collides with todo 2. -/
def twoTodosSt : St :=
  { users := [], attendance := [], deleted := []
    todos := [{ id := 1, user_id := 1, notes := "a", date_created := "2025-06-01" },
              { id := 2, user_id := 1, notes := "b", date_created := "2025-06-01" }] }

/-- State `twoTodosSt` after `deleteTodo(1)`. -/
def oneTodoSt : St := okState (delete_todo 1 twoTodosSt)

/-- The stats dict main.py actually returns on an empty filtered set. -/
def zeroStats : List (String × Rat) :=
  [("total_days", 0), ("present_days", 0), ("absent_days", 0),
   ("attendance_rate", 0)]

/-- Modelled from the spec: the five-field stats object
`(total, present, absent, present_percentage, absent_percentage)` that the
spec says `attendanceStats` returns on an empty filtered set.  This object is
absent from the source: main.py returns the four keys of `zeroStats` instead.
Kept solely to compare the spec's claimed shape with the code's. -/
def specEmptyStats : List (String × Rat) :=
  [("total", 0), ("present", 0), ("absent", 0),
   ("present_percentage", 0), ("absent_percentage", 0)]

/-- The admin-role create request used to probe the back-fill gating. -/
def adminReq : CreateUserRequest :=
  { email := "boss@company.com", password := "pw", full_name := "Boss",
    role := "admin" }

/-- Result of `createUser` of an admin account on the empty state. -/
def adminCreateResult : Except Err St := create_user adminReq "t" pickAll emptySt

/-- A non-admin create request. -/
def plainReq : CreateUserRequest :=
  { email := "plain@company.com", password := "pw", full_name := "Plain",
    role := "user" }

/-- A state holding one June-2025 record, used to exercise the month/year
filter: asking for May 2025 parses the stored date and keeps nothing. -/
def mayFilterSt : St :=
  { users := [], todos := [], deleted := []
    attendance := [{ id := 1, user_id := 2, status := "present",
                     date := "2025-06-10", notes := none }] }

/-- A state whose archive holds a user with email `x@y.z` while no active
user has that email. -/
def archivedEmailSt : St :=
  { users := [], attendance := [], todos := []
    deleted := [{ user := { id := 7, email := "x@y.z", password := "pw",
                            full_name := "Old", role := "user",
                            created_at := none }
                  attendance := [], todos := [], deleted_at := "t0" }] }

/-- The ordinary user of `roundTripSt`. -/
def rtUser : UserR :=
  { id := 2, email := "a@b.c", password := "pw", full_name := "U",
    role := "user", created_at := none }

/-- A small state with one ordinary user owning one attendance record and one
todo, used to instantiate the delete/undo round-trip. -/
def roundTripSt : St :=
  { users := [{ id := 2, email := "a@b.c", password := "pw", full_name := "U",
                role := "user", created_at := none }]
    attendance := [{ id := 1, user_id := 2, status := "present",
                     date := "2025-06-10", notes := none }]
    todos := [{ id := 1, user_id := 2, notes := "n", date_created := "2025-06-10" }]
    deleted := [] }

/-! ## Helper lemmas -/

theorem le_foldl_max {α : Type} (f : α → Nat) (l : List α) (acc : Nat) :
    acc ≤ l.foldl (fun m x => max m (f x)) acc := by
  induction l generalizing acc with
  | nil => simp
  | cons a t ih => exact le_trans (le_max_left _ _) (ih _)

theorem mem_le_foldl_max {α : Type} (f : α → Nat) :
    ∀ (l : List α) (x : α) (acc : Nat), x ∈ l →
      f x ≤ l.foldl (fun m y => max m (f y)) acc
  | a :: t, x, acc, h => by
    cases h with
    | head => exact le_trans (le_max_right _ _) (le_foldl_max f t _)
    | tail _ h' => exact mem_le_foldl_max f t x _ h'

theorem mem_id_le_maxRecId (recs : List Rec) (r : Rec) (h : r ∈ recs) :
    r.id ≤ maxRecId recs :=
  mem_le_foldl_max (fun r => r.id) recs r 0 h

theorem mem_id_le_maxUserId (users : List UserR) (u : UserR) (h : u ∈ users) :
    u.id ≤ maxUserId users :=
  mem_le_foldl_max (fun u => u.id) users u 0 h

theorem find?_decomp {α : Type} (p : α → Bool) :
    ∀ (l : List α) (a : α), l.find? p = some a →
      ∃ l1 l2, l = l1 ++ a :: l2 ∧ ∀ x ∈ l1, p x = false
  | b :: t, a, h => by
    by_cases hb : p b = true
    · rw [List.find?_cons_of_pos _ hb] at h
      injection h with h
      exact ⟨[], t, by simp [h], by simp⟩
    · have hb' : p b = false := by simpa using hb
      rw [List.find?_cons_of_neg _ (by simp [hb'])] at h
      obtain ⟨l1, l2, hl, hall⟩ := find?_decomp p t a h
      refine ⟨b :: l1, l2, by simp [hl], ?_⟩
      intro x hx
      cases hx with
      | head => exact hb'
      | tail _ hx' => exact hall x hx'

theorem upsertFirst_append_of_fail (u : Nat) (d st : String) (nts : Option String) :
    ∀ (l1 l2 : List Rec), (∀ r ∈ l1, matchesKey u d r = false) →
      upsertFirst u d st nts (l1 ++ l2) = l1 ++ upsertFirst u d st nts l2
  | [], _, _ => rfl
  | r :: t, l2, h => by
    have hr : matchesKey u d r = false := h r (List.mem_cons_self _ _)
    have ht := upsertFirst_append_of_fail u d st nts t l2
      (fun x hx => h x (List.mem_cons_of_mem _ hx))
    simp [upsertFirst, hr, ht]

theorem upsertFirst_cons_match (u : Nat) (d st : String) (nts : Option String)
    (r : Rec) (rs : List Rec) (h : matchesKey u d r = true) :
    upsertFirst u d st nts (r :: rs) =
      { r with status := st, notes := nts } :: rs := by
  simp [upsertFirst, h]

theorem matchesKey_fields (u : Nat) (d : String) (r : Rec)
    (h : matchesKey u d r = true) : r.user_id = u ∧ r.date = d := by
  have h' := h
  simp only [matchesKey, Bool.and_eq_true, beq_iff_eq] at h'
  exact h'

theorem create_attendance_of_found (req : AttendanceRequest) (s : St) (r0 : Rec)
    (h : s.attendance.find? (matchesKey req.user_id req.date) = some r0) :
    create_attendance req s =
      ({ r0 with status := req.status, notes := req.notes },
       { s with attendance :=
           upsertFirst req.user_id req.date req.status req.notes s.attendance }) := by
  simp [create_attendance, h]

theorem create_attendance_of_not_found (req : AttendanceRequest) (s : St)
    (h : s.attendance.find? (matchesKey req.user_id req.date) = none) :
    create_attendance req s =
      ({ id := maxRecId s.attendance + 1, user_id := req.user_id,
         status := req.status, date := req.date, notes := req.notes },
       { s with attendance := s.attendance ++
           [{ id := maxRecId s.attendance + 1, user_id := req.user_id,
              status := req.status, date := req.date, notes := req.notes }] }) := by
  simp [create_attendance, h]

/-! ## C1 — `markAttendance` is an upsert keyed by `(user_id, date)` -/

/-- C1: `markAttendance` (main.py `create_attendance`) is an upsert keyed by
`(user_id, date)`.  (i) If a record with the key exists, the first such record
has its `status` and `notes` overwritten in place — same id, same position, no
record added.  (ii) If none exists, exactly one new record is appended, with a
fresh id (`max existing id + 1`, different from every current id).  (iii) In
particular, for a state holding at most one record for the key, marking
`(u, d)` with one status and then again with another leaves exactly one record
for `(u, d)`, bearing the second status and the id produced by the first
call. -/
theorem create_attendance_upsert_spec (s : St) (u : Nat) (d stA stB : String)
    (nA nB : Option String) :
    (∀ r0, s.attendance.find? (matchesKey u d) = some r0 →
        ∃ l1 l2, s.attendance = l1 ++ r0 :: l2 ∧
          (∀ x ∈ l1, matchesKey u d x = false) ∧
          (create_attendance ⟨u, stA, d, nA⟩ s).2.attendance =
            l1 ++ { r0 with status := stA, notes := nA } :: l2 ∧
          (create_attendance ⟨u, stA, d, nA⟩ s).1 =
            { r0 with status := stA, notes := nA }) ∧
    (s.attendance.find? (matchesKey u d) = none →
        (create_attendance ⟨u, stA, d, nA⟩ s).2.attendance =
          s.attendance ++
            [{ id := maxRecId s.attendance + 1, user_id := u, status := stA,
               date := d, notes := nA }] ∧
        ∀ r ∈ s.attendance, r.id ≠ maxRecId s.attendance + 1) ∧
    (countFor u d s.attendance ≤ 1 →
        ((create_attendance ⟨u, stB, d, nB⟩
            (create_attendance ⟨u, stA, d, nA⟩ s).2).2.attendance).filter
            (matchesKey u d) =
          [{ id := (create_attendance ⟨u, stA, d, nA⟩ s).1.id, user_id := u,
             status := stB, date := d, notes := nB }]) := by
  refine ⟨?_, ?_, ?_⟩
  · -- (i) update branch
    intro r0 hf
    obtain ⟨l1, l2, hdecomp, hl1fail⟩ := find?_decomp _ _ _ hf
    have hkey0 : matchesKey u d r0 = true := List.find?_some hf
    have h1 := create_attendance_of_found ⟨u, stA, d, nA⟩ s r0 hf
    refine ⟨l1, l2, hdecomp, hl1fail, ?_, ?_⟩
    · rw [h1]
      show upsertFirst u d stA nA s.attendance = _
      rw [hdecomp, upsertFirst_append_of_fail u d stA nA l1 _ hl1fail,
        upsertFirst_cons_match u d stA nA r0 l2 hkey0]
    · rw [h1]
  · -- (ii) insert branch
    intro hf
    have h1 := create_attendance_of_not_found ⟨u, stA, d, nA⟩ s hf
    constructor
    · rw [h1]
    · intro r hr
      have hle : r.id ≤ maxRecId s.attendance := mem_id_le_maxRecId _ r hr
      omega
  · -- (iii) two successive calls
    intro hcount
    cases hf : s.attendance.find? (matchesKey u d) with
    | none =>
      have h1 := create_attendance_of_not_found ⟨u, stA, d, nA⟩ s hf
      have hallfail : ∀ x ∈ s.attendance, matchesKey u d x = false := by
        intro x hx
        have := List.find?_eq_none.mp hf x hx
        simpa using this
      have hkeynew : matchesKey u d
          ({ id := maxRecId s.attendance + 1, user_id := u, status := stA,
             date := d, notes := nA } : Rec) = true := by
        simp [matchesKey]
      have hfind2 : (create_attendance ⟨u, stA, d, nA⟩ s).2.attendance.find?
          (matchesKey u d) =
          some { id := maxRecId s.attendance + 1, user_id := u, status := stA,
                 date := d, notes := nA } := by
        rw [h1]
        show (s.attendance ++ [_]).find? _ = _
        rw [List.find?_append, hf]
        simp [List.find?_cons_of_pos _ hkeynew]
      have h2 := create_attendance_of_found ⟨u, stB, d, nB⟩
        (create_attendance ⟨u, stA, d, nA⟩ s).2 _ hfind2
      rw [h2]
      show (upsertFirst u d stB nB
        (create_attendance ⟨u, stA, d, nA⟩ s).2.attendance).filter _ = _
      rw [h1]
      show (upsertFirst u d stB nB (s.attendance ++ [_])).filter _ = _
      rw [upsertFirst_append_of_fail u d stB nB s.attendance _ hallfail,
        upsertFirst_cons_match u d stB nB _ [] hkeynew]
      rw [List.filter_append,
        List.filter_eq_nil_iff.mpr (fun x hx => by simp [hallfail x hx])]
      simp [matchesKey]
    | some r0 =>
      obtain ⟨l1, l2, hdecomp, hl1fail⟩ := find?_decomp _ _ _ hf
      have hkey0 : matchesKey u d r0 = true := List.find?_some hf
      obtain ⟨hu0, hd0⟩ := matchesKey_fields u d r0 hkey0
      have h1 := create_attendance_of_found ⟨u, stA, d, nA⟩ s r0 hf
      have hl1nil : List.filter (matchesKey u d) l1 = [] :=
        List.filter_eq_nil_iff.mpr (fun x hx => by simp [hl1fail x hx])
      have hl2fail : ∀ x ∈ l2, matchesKey u d x = false := by
        have hc : countFor u d s.attendance ≤ 1 := hcount
        unfold countFor at hc
        rw [hdecomp, List.filter_append, hl1nil,
          List.filter_cons_of_pos hkey0] at hc
        simp only [List.nil_append, List.length_cons] at hc
        have : (List.filter (matchesKey u d) l2).length = 0 := by omega
        have hnil := List.length_eq_zero.mp this
        intro x hx
        by_contra hxk
        have hxk' : matchesKey u d x = true := by
          cases hmk : matchesKey u d x with
          | true => rfl
          | false => exact absurd hmk hxk
        have : x ∈ List.filter (matchesKey u d) l2 :=
          List.mem_filter.mpr ⟨hx, hxk'⟩
        rw [hnil] at this
        cases this
      have hkey1 : matchesKey u d ({ r0 with status := stA, notes := nA } : Rec)
          = true := by
        simp [matchesKey, hu0, hd0]
      have hs1att : (create_attendance ⟨u, stA, d, nA⟩ s).2.attendance =
          l1 ++ { r0 with status := stA, notes := nA } :: l2 := by
        rw [h1]
        show upsertFirst u d stA nA s.attendance = _
        rw [hdecomp, upsertFirst_append_of_fail u d stA nA l1 _ hl1fail,
          upsertFirst_cons_match u d stA nA r0 l2 hkey0]
      have hfind2 : (create_attendance ⟨u, stA, d, nA⟩ s).2.attendance.find?
          (matchesKey u d) = some { r0 with status := stA, notes := nA } := by
        rw [hs1att, List.find?_append, List.find?_eq_none.mpr
          (fun x hx => by simp [hl1fail x hx])]
        simp [List.find?_cons_of_pos _ hkey1]
      have h2 := create_attendance_of_found ⟨u, stB, d, nB⟩
        (create_attendance ⟨u, stA, d, nA⟩ s).2 _ hfind2
      rw [h2]
      show (upsertFirst u d stB nB
        (create_attendance ⟨u, stA, d, nA⟩ s).2.attendance).filter _ = _
      rw [hs1att, upsertFirst_append_of_fail u d stB nB l1 _ hl1fail,
        upsertFirst_cons_match u d stB nB _ l2 hkey1]
      rw [List.filter_append, hl1nil,
        List.filter_cons_of_pos (by simp [matchesKey, hu0, hd0]),
        List.filter_eq_nil_iff.mpr (fun x hx => by simp [hl2fail x hx])]
      rw [h1]
      simp [hu0, hd0]

/-- Witness for C1: on the empty state, marking `(2, "2025-06-10")` `present`
and then `absent` leaves exactly one record for the key, with status `absent`
and the id of the first call's record. -/
theorem create_attendance_upsert_spec_inst :
    countFor 2 "2025-06-10" emptySt.attendance ≤ 1 ∧
    ((create_attendance ⟨2, "absent", "2025-06-10", none⟩
        (create_attendance ⟨2, "present", "2025-06-10", none⟩ emptySt).2).2.attendance).filter
        (matchesKey 2 "2025-06-10") =
      [{ id := (create_attendance ⟨2, "present", "2025-06-10", none⟩ emptySt).1.id,
         user_id := 2, status := "absent", date := "2025-06-10", notes := none }] :=
  ⟨by decide,
   (create_attendance_upsert_spec emptySt 2 "2025-06-10" "present" "absent"
     none none).2.2 (by decide)⟩

/-! ## C2 — delete followed by undo restores the user's data -/

theorem delete_user_of_found (uid : Nat) (now : String) (s : St) (u : UserR)
    (hfind : s.users.find? (fun v => v.id == uid) = some u)
    (hrole : (u.role == "admin") = false) :
    delete_user uid now s =
      .ok { users := s.users.filter (fun v => v.id != uid)
            attendance := s.attendance.filter (fun r => r.user_id != uid)
            todos := s.todos.filter (fun t => t.user_id != uid)
            deleted := s.deleted ++
              [{ user := u
                 attendance := s.attendance.filter (fun r => r.user_id == uid)
                 todos := s.todos.filter (fun t => t.user_id == uid)
                 deleted_at := now }] } := by
  simp [delete_user, hfind, hrole]

theorem undo_user_deletion_of_none (uid : Nat) (s : St)
    (h : s.deleted.find? (fun e => e.user.id == uid) = none) :
    undo_user_deletion uid s = .error .notFound := by
  simp [undo_user_deletion, h]

theorem undo_user_deletion_of_found (uid : Nat) (s : St) (d : ArchEntry)
    (hfind : s.deleted.find? (fun e => e.user.id == uid) = some d) :
    undo_user_deletion uid s =
      .ok { users := s.users ++ [d.user]
            attendance := s.attendance ++ d.attendance
            todos := s.todos ++ d.todos
            deleted := s.deleted.filter (fun e => e.user.id != uid) } := by
  simp [undo_user_deletion, hfind]

theorem filter_eq_singleton_of_mem_length_one {α : Type} (p : α → Bool)
    (l : List α) (u : α) (hmem : u ∈ l) (hp : p u = true)
    (hlen : (l.filter p).length = 1) : l.filter p = [u] := by
  obtain ⟨a, ha⟩ := List.length_eq_one.mp hlen
  have hu : u ∈ l.filter p := List.mem_filter.mpr ⟨hmem, hp⟩
  rw [ha] at hu ⊢
  simp only [List.mem_singleton] at hu
  rw [hu]

/-- C2 counterexample to the claim as stated: user 1 is an active user of
`adminOnlySt`, yet `deleteUser(1)` followed by `undoUserDeletion(1)` restores
nothing — the delete itself is refused with 403 (main.py refuses to delete
admin-role users), so the composite never reaches a successful undo. -/
theorem delete_undo_admin_refused :
    1 ∈ activeUserIds adminOnlySt ∧
    delete_user 1 "t" adminOnlySt = .error .forbidden ∧
    ¬ ∃ s1 s2, delete_user 1 "t" adminOnlySt = .ok s1 ∧
        undo_user_deletion 1 s1 = .ok s2 := by
  refine ⟨by decide, rfl, ?_⟩
  rintro ⟨s1, s2, h, -⟩
  have hd : delete_user 1 "t" adminOnlySt = .error .forbidden := rfl
  rw [hd] at h
  simp at h

/-- C2 (amended): for every state and every id that identifies exactly one
active user, provided that user is not an admin (main.py refuses to delete
admins) and the archive holds no prior entry for the id, `deleteUser(id)`
followed by `undoUserDeletion(id)` succeeds and restores the three active
collections up to permutation (the user and each of their attendance and todo
rows are re-inserted with their exact pre-deletion values), leaves the archive
as it was, and a second `undoUserDeletion(id)` immediately after fails
NotFound. -/
theorem delete_then_undo_restores (s : St) (uid : Nat) (now : String) (u : UserR)
    (hfind : s.users.find? (fun v => v.id == uid) = some u)
    (hrole : u.role ≠ "admin")
    (huniq : (s.users.filter (fun v => v.id == uid)).length = 1)
    (harch : ∀ e ∈ s.deleted, e.user.id ≠ uid) :
    ∃ s1 s2, delete_user uid now s = .ok s1 ∧
      undo_user_deletion uid s1 = .ok s2 ∧
      List.Perm s2.users s.users ∧
      List.Perm s2.attendance s.attendance ∧
      List.Perm s2.todos s.todos ∧
      s2.deleted = s.deleted ∧
      undo_user_deletion uid s2 = .error .notFound := by
  have hrole' : (u.role == "admin") = false := by
    simpa using hrole
  have huid : u.id = uid := by
    have := List.find?_some hfind
    simpa using this
  have humem : u ∈ s.users := List.mem_of_find?_eq_some hfind
  have hdel := delete_user_of_found uid now s u hfind hrole'
  have hfindarch : s.deleted.find? (fun e => e.user.id == uid) = none :=
    List.find?_eq_none.mpr (fun e he => by simp [harch e he])
  set entry : ArchEntry :=
    { user := u
      attendance := s.attendance.filter (fun r => r.user_id == uid)
      todos := s.todos.filter (fun t => t.user_id == uid)
      deleted_at := now } with hentry
  set s1 : St :=
    { users := s.users.filter (fun v => v.id != uid)
      attendance := s.attendance.filter (fun r => r.user_id != uid)
      todos := s.todos.filter (fun t => t.user_id != uid)
      deleted := s.deleted ++ [entry] } with hs1
  have hfind1 : s1.deleted.find? (fun e => e.user.id == uid) = some entry := by
    show (s.deleted ++ [entry]).find? _ = _
    rw [List.find?_append, hfindarch]
    simp [hentry, huid]
  have hundo := undo_user_deletion_of_found uid s1 entry hfind1
  set s2 : St :=
    { users := s1.users ++ [entry.user]
      attendance := s1.attendance ++ entry.attendance
      todos := s1.todos ++ entry.todos
      deleted := s1.deleted.filter (fun e => e.user.id != uid) } with hs2
  have hdeleq : s2.deleted = s.deleted := by
    show (s.deleted ++ [entry]).filter (fun e => e.user.id != uid) = s.deleted
    rw [List.filter_append]
    have h1 : s.deleted.filter (fun e => e.user.id != uid) = s.deleted :=
      List.filter_eq_self.mpr (fun e he => by simp [harch e he])
    have h2 : List.filter (fun (e : ArchEntry) => e.user.id != uid) [entry]
        = [] := by
      simp [hentry, huid]
    rw [h1, h2, List.append_nil]
  refine ⟨s1, s2, hdel, hundo, ?_, ?_, ?_, hdeleq, ?_⟩
  · -- users are restored up to permutation
    have hone : s.users.filter (fun v => v.id == uid) = [u] :=
      filter_eq_singleton_of_mem_length_one _ _ u humem (by simp [huid]) huniq
    show List.Perm (s.users.filter (fun v => !(v.id == uid)) ++ [u]) s.users
    rw [← hone]
    exact (List.perm_append_comm).trans (List.filter_append_perm _ _)
  · -- attendance is restored up to permutation
    show List.Perm (s.attendance.filter (fun r => !(r.user_id == uid)) ++
      s.attendance.filter (fun r => r.user_id == uid)) s.attendance
    exact (List.perm_append_comm).trans (List.filter_append_perm _ _)
  · -- todos are restored up to permutation
    show List.Perm (s.todos.filter (fun t => !(t.user_id == uid)) ++
      s.todos.filter (fun t => t.user_id == uid)) s.todos
    exact (List.perm_append_comm).trans (List.filter_append_perm _ _)
  · -- a second undo finds nothing
    have hnone : s2.deleted.find? (fun e => e.user.id == uid) = none := by
      rw [hdeleq]
      exact hfindarch
    exact undo_user_deletion_of_none uid s2 hnone

/-- Witness for C2 (amended): the round trip on `roundTripSt` for user 2. -/
theorem delete_then_undo_restores_inst :
    roundTripSt.users.find? (fun v => v.id == 2) = some rtUser ∧
    rtUser.role ≠ "admin" ∧
    (roundTripSt.users.filter (fun v => v.id == 2)).length = 1 ∧
    (∀ e ∈ roundTripSt.deleted, e.user.id ≠ 2) ∧
    ∃ s1 s2, delete_user 2 "t" roundTripSt = .ok s1 ∧
      undo_user_deletion 2 s1 = .ok s2 ∧
      List.Perm s2.users roundTripSt.users ∧
      List.Perm s2.attendance roundTripSt.attendance ∧
      List.Perm s2.todos roundTripSt.todos ∧
      s2.deleted = roundTripSt.deleted ∧
      undo_user_deletion 2 s2 = .error .notFound :=
  ⟨by decide, by decide, by decide, by decide,
   delete_then_undo_restores roundTripSt 2 "t" rtUser (by decide) (by decide)
     (by decide) (by decide)⟩

/-! ## C3 — the active/archive id-disjointness invariant fails on the code -/

/-- C3 fails on the code: in a state reachable from the seeded initial state
by `deleteUser(6)` followed by one `createUser`, the new account receives id
`max(active ids) + 1 = 6` while the archive still holds the old user 6 — id 6
is simultaneously an active user id and an archived user id. -/
theorem archive_active_ids_overlap :
    reuseIdChain = .ok (okState reuseIdChain) ∧
    6 ∈ activeUserIds (okState reuseIdChain) ∧
    6 ∈ archivedUserIds (okState reuseIdChain) := by
  refine ⟨rfl, by decide, by decide⟩

/-! ## C4 — the one-record-per-(user_id, date) invariant fails on the code -/

/-- C4 fails on the code: continuing the id-reuse scenario with
`undoUserDeletion(6)` re-inserts the archived back-fill of the old user 6
next to the freshly generated back-fill of the new user 6, leaving two
attendance records for the key `(6, "2025-04-01")`. -/
theorem attendance_key_duplicated :
    reuseIdUndoChain = .ok (okState reuseIdUndoChain) ∧
    countFor 6 "2025-04-01" (okState reuseIdUndoChain).attendance = 2 := by
  refine ⟨rfl, by decide⟩

/-! ## C5 — the back-fill is NOT gated on the role; only the todo is -/

/-- C5 counterexample to the claim as stated: creating an admin-role user on
the empty state DOES synthesize the attendance back-fill (67 weekday records
for the fresh id 1) while creating no welcome todo — main.py calls
`generate_attendance_for_user` unconditionally and gates only the todo on
`role != "admin"`. -/
theorem admin_backfill_generated :
    adminCreateResult = .ok (okState adminCreateResult) ∧
    ((okState adminCreateResult).attendance.filter
        (fun r => r.user_id == 1)).length = 67 ∧
    (okState adminCreateResult).todos = [] := by
  refine ⟨rfl, by decide, by decide⟩

theorem create_user_ok_elim (req : CreateUserRequest) (now : String)
    (pick : Nat → Bool) (s s' : St)
    (h : create_user req now pick s = .ok s') :
    s' = { users := s.users ++
             [{ id := maxUserId s.users + 1, email := req.email,
                password := req.password, full_name := req.full_name,
                role := req.role, created_at := some now }]
           attendance := generate_attendance_for_user (maxUserId s.users + 1)
             pick s.attendance
           todos := if req.role != "admin" then
               s.todos ++ [{ id := s.todos.length + 1,
                             user_id := maxUserId s.users + 1,
                             notes := welcomeNote req.full_name,
                             date_created := now }]
             else s.todos
           deleted := s.deleted } := by
  by_cases hdup : (s.users.any (fun u => u.email == req.email)) = true
  · rw [create_user] at h
    rw [if_pos hdup] at h
    cases h
  · have hdup' : (s.users.any (fun u => u.email == req.email)) = false :=
      Bool.eq_false_iff.mpr hdup
    rw [create_user] at h
    rw [if_neg (by simp [hdup'])] at h
    simp only [Except.ok.injEq] at h
    exact h.symm

/-- C5 (amended): every successful `createUser` inserts the new user and then
synthesizes the fixed-window attendance back-fill unconditionally (67 weekday
records, for admins as well); the one welcome todo is created if and only if
the requested role is not admin. -/
theorem create_user_effects (req : CreateUserRequest) (now : String)
    (pick : Nat → Bool) (s s' : St)
    (h : create_user req now pick s = .ok s') :
    ({ id := maxUserId s.users + 1, email := req.email,
       password := req.password, full_name := req.full_name, role := req.role,
       created_at := some now } : UserR) ∈ s'.users ∧
    s'.attendance.length = s.attendance.length + 67 ∧
    (req.role ≠ "admin" → s'.todos = s.todos ++
       [{ id := s.todos.length + 1, user_id := maxUserId s.users + 1,
          notes := welcomeNote req.full_name, date_created := now }]) ∧
    (req.role = "admin" → s'.todos = s.todos) := by
  have hs' := create_user_ok_elim req now pick s s' h
  subst hs'
  refine ⟨?_, ?_, ?_, ?_⟩
  · simp
  · show (generate_attendance_for_user _ pick s.attendance).length = _
    rw [generate_attendance_for_user, List.length_append, List.length_map,
      List.enum_length]
    have h67 : backfillDays.length = 67 := by decide
    rw [h67]
  · intro hrole
    have hrole' : (req.role != "admin") = true := by simpa using hrole
    simp [hrole']
  · intro hrole
    have hrole' : (req.role != "admin") = false := by simp [hrole]
    simp [hrole']

/-- Witness for C5 (amended): a non-admin `createUser` on the empty state. -/
theorem create_user_effects_inst :
    create_user plainReq "t" pickAll emptySt = .ok (okState (create_user plainReq "t" pickAll emptySt)) ∧
    ({ id := maxUserId emptySt.users + 1, email := plainReq.email,
       password := plainReq.password, full_name := plainReq.full_name,
       role := plainReq.role, created_at := some "t" } : UserR) ∈
      (okState (create_user plainReq "t" pickAll emptySt)).users :=
  ⟨rfl,
   (create_user_effects plainReq "t" pickAll emptySt
     (okState (create_user plainReq "t" pickAll emptySt)) rfl).1⟩

/-! ## C6 — id assignment: max+1 for users and attendance, len+1 for todos -/

/-- C6 counterexample to the claim as stated: with todos `[1, 2]`, deleting
todo 1 and then creating a todo assigns the new todo id
`len(TODOS) + 1 = 2`, which is NOT strictly greater than every current id —
it collides with the surviving todo 2. -/
theorem todo_id_collision :
    delete_todo 1 twoTodosSt = .ok oneTodoSt ∧
    (create_todo { user_id := 1, notes := "c", date_created := none } "t"
        oneTodoSt).1.id = 2 ∧
    2 ∈ oneTodoSt.todos.map (fun t => t.id) := by
  refine ⟨rfl, by decide, by decide⟩

/-- C6 (amended): inserts into Users and Attendance assign
`max existing id + 1` (1 when empty), hence an id strictly greater than every
id currently in the collection; inserts into Todos instead assign
`len(TODOS) + 1`, which can collide with a surviving id once a todo has been
deleted. -/
theorem insert_id_assignment (s s' : St) (req : CreateUserRequest)
    (areq : AttendanceRequest) (treq : TodoRequest) (now : String)
    (pick : Nat → Bool) :
    (create_user req now pick s = .ok s' →
       (∃ u ∈ s'.users, u.id = maxUserId s.users + 1) ∧
       ∀ u ∈ s.users, u.id < maxUserId s.users + 1) ∧
    (s.attendance.find? (matchesKey areq.user_id areq.date) = none →
       (create_attendance areq s).1.id = maxRecId s.attendance + 1 ∧
       ∀ r ∈ s.attendance, r.id < maxRecId s.attendance + 1) ∧
    (create_todo treq now s).1.id = s.todos.length + 1 := by
  refine ⟨?_, ?_, rfl⟩
  · intro h
    have hs' := create_user_ok_elim req now pick s s' h
    subst hs'
    refine ⟨⟨{ id := maxUserId s.users + 1, email := req.email,
               password := req.password, full_name := req.full_name,
               role := req.role, created_at := some now },
             by simp, rfl⟩, ?_⟩
    intro u hu
    exact Nat.lt_succ_of_le (mem_id_le_maxUserId s.users u hu)
  · intro hf
    have h1 := create_attendance_of_not_found areq s hf
    constructor
    · rw [h1]
    · intro r hr
      exact Nat.lt_succ_of_le (mem_id_le_maxRecId s.attendance r hr)

/-- Witness for C6 (amended): the attendance branch on the empty state. -/
theorem insert_id_assignment_inst :
    emptySt.attendance.find? (matchesKey 2 "2025-06-10") = none ∧
    (create_attendance ⟨2, "present", "2025-06-10", none⟩ emptySt).1.id =
      maxRecId emptySt.attendance + 1 :=
  ⟨by decide,
   ((insert_id_assignment emptySt emptySt
       ⟨"a@b.c", "p", "A", "user"⟩ ⟨2, "present", "2025-06-10", none⟩
       ⟨2, "n", none⟩ "t" pickAll).2.1 (by decide)).1⟩

/-! ## C7 — deleteUser error conditions and cascade -/

theorem delete_user_of_none (uid : Nat) (now : String) (s : St)
    (h : s.users.find? (fun v => v.id == uid) = none) :
    delete_user uid now s = .error .notFound := by
  simp [delete_user, h]

/-- C7 counterexample to the claim as stated: user 1 of `adminOnlySt` is an
active user, yet `deleteUser(1)` does not succeed — main.py refuses to delete
admin-role users with 403. -/
theorem delete_user_admin_refused :
    1 ∈ activeUserIds adminOnlySt ∧
    delete_user 1 "t" adminOnlySt = .error .forbidden :=
  ⟨by decide, rfl⟩

/-- C7 (amended): `deleteUser` fails NotFound exactly when no active user has
the id; when the id identifies an active admin it fails Forbidden instead of
succeeding; for every active non-admin user it succeeds, archives
`(user, attendance, todos, deleted_at)` as a new archive entry, and removes
the user and every attendance and todo row they own from the active
collections. -/
theorem delete_user_spec (s : St) (uid : Nat) (now : String) :
    (delete_user uid now s = .error .notFound ↔
      s.users.find? (fun v => v.id == uid) = none) ∧
    (∀ u, s.users.find? (fun v => v.id == uid) = some u →
      (u.role = "admin" → delete_user uid now s = .error .forbidden) ∧
      (u.role ≠ "admin" → ∃ s', delete_user uid now s = .ok s' ∧
        s'.deleted = s.deleted ++
          [{ user := u
             attendance := s.attendance.filter (fun r => r.user_id == uid)
             todos := s.todos.filter (fun t => t.user_id == uid)
             deleted_at := now }] ∧
        (∀ v ∈ s'.users, v.id ≠ uid) ∧
        (∀ r ∈ s'.attendance, r.user_id ≠ uid) ∧
        (∀ t ∈ s'.todos, t.user_id ≠ uid) ∧
        s'.users = s.users.filter (fun v => v.id != uid) ∧
        s'.attendance = s.attendance.filter (fun r => r.user_id != uid) ∧
        s'.todos = s.todos.filter (fun t => t.user_id != uid))) := by
  constructor
  · constructor
    · intro h
      cases hfind : s.users.find? (fun v => v.id == uid) with
      | none => rfl
      | some u =>
        exfalso
        by_cases hr : (u.role == "admin") = true
        · simp [delete_user, hfind, hr] at h
        · have hr' : (u.role == "admin") = false := Bool.eq_false_iff.mpr hr
          have heq := delete_user_of_found uid now s u hfind hr'
          rw [heq] at h
          cases h
    · intro h
      exact delete_user_of_none uid now s h
  · intro u hfind
    constructor
    · intro hrole
      have hr : (u.role == "admin") = true := by simp [hrole]
      simp [delete_user, hfind, hr]
    · intro hrole
      have hr' : (u.role == "admin") = false := by simpa using hrole
      refine ⟨_, delete_user_of_found uid now s u hfind hr', rfl,
        ?_, ?_, ?_, rfl, rfl, rfl⟩
      · intro v hv
        have := (List.mem_filter.mp hv).2
        simpa using this
      · intro r hrm
        have := (List.mem_filter.mp hrm).2
        simpa using this
      · intro t ht
        have := (List.mem_filter.mp ht).2
        simpa using this

/-- Witness for C7 (amended): deleting the non-admin user 2 of `roundTripSt`
succeeds and leaves no row of theirs behind. -/
theorem delete_user_spec_inst :
    roundTripSt.users.find? (fun v => v.id == 2) = some rtUser ∧
    rtUser.role ≠ "admin" ∧
    ∃ s', delete_user 2 "t" roundTripSt = .ok s' ∧
      ∀ v ∈ s'.users, v.id ≠ 2 := by
  refine ⟨by decide, by decide, ?_⟩
  obtain ⟨s', h1, -, h3, -⟩ :=
    ((delete_user_spec roundTripSt 2 "t").2 rtUser (by decide)).2 (by decide)
  exact ⟨s', h1, h3⟩

/-! ## C8 — DuplicateEmail checks active users only -/

/-- C8: `createUser` fails DuplicateEmail exactly when some ACTIVE user
already has the requested email; the Deleted Users archive is never consulted
(the duplicate check ranges over `USERS` only), so an email held only by an
archived user can be registered again. -/
theorem duplicate_email_iff_active (s : St) (req : CreateUserRequest)
    (now : String) (pick : Nat → Bool) :
    (create_user req now pick s = .error .duplicateEmail ↔
      ∃ u ∈ s.users, u.email = req.email) ∧
    ((¬ ∃ u ∈ s.users, u.email = req.email) →
      ∃ s', create_user req now pick s = .ok s') := by
  have hiff : (s.users.any (fun u => u.email == req.email)) = true ↔
      ∃ u ∈ s.users, u.email = req.email := by
    rw [List.any_eq_true]
    constructor
    · rintro ⟨u, hu, hb⟩
      exact ⟨u, hu, by simpa using hb⟩
    · rintro ⟨u, hu, he⟩
      exact ⟨u, hu, by simp [he]⟩
  constructor
  · constructor
    · intro h
      by_cases hdup : (s.users.any (fun u => u.email == req.email)) = true
      · exact hiff.mp hdup
      · exfalso
        have hdup' := Bool.eq_false_iff.mpr hdup
        rw [create_user, if_neg (by simp [hdup'])] at h
        cases h
    · intro hex
      rw [create_user, if_pos (hiff.mpr hex)]
  · intro hnex
    have hdup' : (s.users.any (fun u => u.email == req.email)) = false := by
      rw [Bool.eq_false_iff]
      intro hc
      exact hnex (hiff.mp hc)
    rw [create_user, if_neg (by simp [hdup'])]
    exact ⟨_, rfl⟩

/-- Witness for C8: the email `x@y.z`, held only by the archived user of
`archivedEmailSt`, can be registered again. -/
theorem duplicate_email_iff_active_inst :
    (¬ ∃ u ∈ archivedEmailSt.users, u.email = "x@y.z") ∧
    ∃ s', create_user ⟨"x@y.z", "pw", "New", "user"⟩ "t" pickAll
      archivedEmailSt = .ok s' :=
  ⟨by decide,
   (duplicate_email_iff_active archivedEmailSt ⟨"x@y.z", "pw", "New", "user"⟩
     "t" pickAll).2 (by decide)⟩

/-! ## C9 — stats on an empty filtered set -/

/-- C9 counterexample to the claim as stated: on the empty filtered set
main.py returns the four keys `total_days / present_days / absent_days /
attendance_rate` (all 0) — not the `(total, present, absent,
present_percentage, absent_percentage)` object the claim names; in
particular no `absent_percentage` field exists in the response at all. -/
theorem stats_field_names_differ :
    get_attendance_stats none none none emptySt ≠ some specEmptyStats ∧
    get_attendance_stats none none none emptySt = some zeroStats :=
  ⟨by decide, by decide⟩

/-- C9 (amended): for every filter whose filtered attendance set is empty,
`attendanceStats` returns the all-zero stats object `(total_days: 0,
present_days: 0, absent_days: 0, attendance_rate: 0)`; the
`total_records > 0` guard short-circuits, so no division by zero is ever
attempted. -/
theorem stats_empty_all_zero (uid month year : Option Nat) (s : St)
    (h : filterAttendance uid month year s.attendance = some []) :
    get_attendance_stats uid month year s = some zeroStats := by
  rw [get_attendance_stats, h]
  simp [zeroStats]

/-- Witness for C9 (amended): filtering `mayFilterSt` for May 2025 parses the
stored (June) date, keeps no record, and the stats come back all zero. -/
theorem stats_empty_all_zero_inst :
    filterAttendance none (some 5) (some 2025) mayFilterSt.attendance
      = some [] ∧
    get_attendance_stats none (some 5) (some 2025) mayFilterSt
      = some zeroStats :=
  ⟨by decide,
   stats_empty_all_zero none (some 5) (some 2025) mayFilterSt (by decide)⟩

/-! ## C10 — the shape of the records returned by `GET /api/attendance` -/

theorem userFilter_mem (uid : Option Nat) (recs : List Rec) :
    ∀ x ∈ userFilter uid recs, x ∈ recs := by
  intro x hx
  cases uid with
  | none => exact hx
  | some n =>
    by_cases hn : (n != 0) = true
    · rw [userFilter, if_pos hn] at hx
      exact List.mem_of_mem_filter hx
    · rw [userFilter, if_neg hn] at hx
      exact hx

theorem monthYearFilter_mem (month year : Option Nat) :
    ∀ (l l' : List Rec), monthYearFilter month year l = some l' →
      ∀ r ∈ l', r ∈ l
  | [], l', h => by
    intro r hr
    simp only [monthYearFilter, Option.some.injEq] at h
    subst h
    cases hr
  | a :: t, l', h => by
    intro r hr
    cases hp : parseDate a.date with
    | none =>
      simp only [monthYearFilter, hp, Option.bind_eq_bind, Option.none_bind] at h
      exact Option.noConfusion h
    | some ym =>
      cases hm : monthYearFilter month year t with
      | none =>
        simp only [monthYearFilter, hp, hm, Option.bind_eq_bind,
          Option.some_bind, Option.none_bind] at h
        exact Option.noConfusion h
      | some rest =>
        simp only [monthYearFilter, hp, hm, Option.bind_eq_bind,
          Option.some_bind, Option.pure_def, Option.some.injEq] at h
        subst h
        by_cases hk : keepRecord month year ym = true
        · rw [if_pos hk] at hr
          cases hr with
          | head => exact List.mem_cons_self _ _
          | tail _ hr' =>
            exact List.mem_cons_of_mem _
              (monthYearFilter_mem month year t rest hm r hr')
        · rw [if_neg hk] at hr
          exact List.mem_cons_of_mem _
            (monthYearFilter_mem month year t rest hm r hr)

theorem filterAttendance_mem (uid month year : Option Nat)
    (recs l' : List Rec) (h : filterAttendance uid month year recs = some l') :
    ∀ r ∈ l', r ∈ recs := by
  intro r hr
  rw [filterAttendance] at h
  by_cases hmy : (month.isSome || year.isSome) = true
  · rw [if_pos hmy] at h
    exact userFilter_mem uid recs r
      (monthYearFilter_mem month year (userFilter uid recs) l' h r hr)
  · rw [if_neg hmy] at h
    simp only [Option.some.injEq] at h
    subst h
    exact userFilter_mem uid recs r hr

theorem cleanRecord_found (users : List UserR) (r : Rec) (u : UserR)
    (h : users.find? (fun v => v.id == r.user_id) = some u) :
    cleanRecord users r =
      [("id", Val.nat r.id), ("user_id", Val.nat r.user_id),
       ("status", Val.str r.status), ("date", Val.str r.date),
       ("user_name", Val.str u.full_name), ("user_email", Val.str u.email)] := by
  simp [cleanRecord, h]

theorem cleanRecord_not_found (users : List UserR) (r : Rec)
    (h : users.find? (fun v => v.id == r.user_id) = none) :
    cleanRecord users r =
      [("id", Val.nat r.id), ("user_id", Val.nat r.user_id),
       ("status", Val.str r.status), ("date", Val.str r.date)] := by
  simp [cleanRecord, h]

/-- C10: every record dict returned by `GET /api/attendance` is built from a
stored record with the `notes` key omitted, and carries the `user_name` /
`user_email` keys exactly when a user with the record's `user_id` is
currently active (records of non-active owners come back with only the four
base keys).  The endpoint itself is a pure read: it is modelled as a function
of the state and touches no collection. -/
theorem get_attendance_record_shape (uid month year : Option Nat) (s : St)
    (out : List (List (String × Val)))
    (h : get_attendance uid month year s = some out) :
    ∀ o ∈ out, ∃ r, r ∈ s.attendance ∧ o = cleanRecord s.users r ∧
      "notes" ∉ o.map Prod.fst ∧
      ((∃ u ∈ s.users, u.id = r.user_id) →
        ∃ u, s.users.find? (fun v => v.id == r.user_id) = some u ∧
          o.map Prod.fst =
            ["id", "user_id", "status", "date", "user_name", "user_email"] ∧
          ("user_name", Val.str u.full_name) ∈ o ∧
          ("user_email", Val.str u.email) ∈ o) ∧
      ((¬ ∃ u ∈ s.users, u.id = r.user_id) →
        o.map Prod.fst = ["id", "user_id", "status", "date"]) := by
  intro o ho
  rw [get_attendance] at h
  cases hf : filterAttendance uid month year s.attendance with
  | none => rw [hf] at h; cases h
  | some recs =>
    rw [hf] at h
    simp only [Option.map_some', Option.some.injEq] at h
    subst h
    obtain ⟨r, hrmem, hro⟩ := List.mem_map.mp ho
    refine ⟨r, filterAttendance_mem uid month year s.attendance recs hf r hrmem,
      hro.symm, ?_, ?_, ?_⟩
    · -- no "notes" key
      cases hfu : s.users.find? (fun v => v.id == r.user_id) with
      | some u =>
        rw [← hro, cleanRecord_found s.users r u hfu]
        simp only [List.map_cons, List.map_nil]
        decide
      | none =>
        rw [← hro, cleanRecord_not_found s.users r hfu]
        simp only [List.map_cons, List.map_nil]
        decide
    · -- active owner: the two extra keys are present
      rintro ⟨u, hu, huid⟩
      have hsome : (s.users.find? (fun v => v.id == r.user_id)).isSome :=
        List.find?_isSome.mpr ⟨u, hu, by simp [huid]⟩
      obtain ⟨u', hu'⟩ := Option.isSome_iff_exists.mp hsome
      refine ⟨u', hu', ?_, ?_, ?_⟩
      · rw [← hro, cleanRecord_found s.users r u' hu']
        rfl
      · rw [← hro, cleanRecord_found s.users r u' hu']
        simp
      · rw [← hro, cleanRecord_found s.users r u' hu']
        simp
    · -- non-active owner: only the four base keys
      intro hnone
      have hfu : s.users.find? (fun v => v.id == r.user_id) = none := by
        apply List.find?_eq_none.mpr
        intro v hv hveq
        exact hnone ⟨v, hv, by simpa using hveq⟩
      rw [← hro, cleanRecord_not_found s.users r hfu]
      rfl

/-- Witness for C10: the single-record output on `roundTripSt`. -/
theorem get_attendance_record_shape_inst :
    get_attendance none none none roundTripSt =
      some [[("id", Val.nat 1), ("user_id", Val.nat 2),
             ("status", Val.str "present"), ("date", Val.str "2025-06-10"),
             ("user_name", Val.str "U"), ("user_email", Val.str "a@b.c")]] ∧
    ∀ o ∈ [[("id", Val.nat 1), ("user_id", Val.nat 2),
            ("status", Val.str "present"), ("date", Val.str "2025-06-10"),
            ("user_name", Val.str "U"), ("user_email", Val.str "a@b.c")]],
      ∃ r, r ∈ roundTripSt.attendance ∧ o = cleanRecord roundTripSt.users r ∧
        "notes" ∉ o.map Prod.fst ∧
        ((∃ u ∈ roundTripSt.users, u.id = r.user_id) →
          ∃ u, roundTripSt.users.find? (fun v => v.id == r.user_id) = some u ∧
            o.map Prod.fst =
              ["id", "user_id", "status", "date", "user_name", "user_email"] ∧
            ("user_name", Val.str u.full_name) ∈ o ∧
            ("user_email", Val.str u.email) ∈ o) ∧
        ((¬ ∃ u ∈ roundTripSt.users, u.id = r.user_id) →
          o.map Prod.fst = ["id", "user_id", "status", "date"]) :=
  ⟨by decide,
   get_attendance_record_shape none none none roundTripSt _ (by decide)⟩

end OfficeApp
